import Mathlib

/-!
Shallow embedding of the FINN "MultiThreshold" operator registration
(src/src/relay/op/contrib/finn.cc and include/tvm/relay/attrs/finn.h):
the dtype-descriptor parser `try_process_out_dtype` and the type relation
`MultiThresholdRel`, together with theorems checking the specification's
claims about them.
-/

namespace Finn

/-- A tensor type: a shape (sequence of concrete dimensions) plus an opaque
element-type tag, embedding TVM's `TensorTypeNode` as used by the relation. -/
structure TensorType where
  shape : List Int
  dtype : Nat
  deriving DecidableEq, Repr

/-- A type slot's content: either a tensor type (so `as<TensorTypeNode>()`
returns non-null) or some other IR type (so it returns null). -/
inductive RelayType
  | tensor (t : TensorType)
  | nonTensor (tag : Nat)
  deriving DecidableEq, Repr

/-- `MultiThresholdAttrs` from include/tvm/relay/attrs/finn.h: the target
dtype descriptor string and the `double` bias.  The finite double value is
embedded as a rational; every comparison the code performs on it is an exact
equality test against an integer that is exactly representable as a double. -/
structure MultiThresholdAttrs where
  out_dtype : String
  out_bias : ℚ
  deriving DecidableEq, Repr

/-- Per-position comparison used by `std::string::find`: does `pat` occur at
the very start of `s`? -/
def leadsWith : List Char → List Char → Bool
  | [], _ => true
  | _ :: _, [] => false
  | p :: ps, c :: cs => p = c && leadsWith ps cs

/-- `std::string::find`: index of the first occurrence of `pat` in `s`,
`none` for `std::string::npos`. -/
def strFind (pat : List Char) : List Char → Option Nat
  | [] => if leadsWith pat [] then some 0 else none
  | c :: rest =>
    if leadsWith pat (c :: rest) then some 0
    else (strFind pat rest).map (fun i => i + 1)

/-- Whitespace as classified by `std::isspace` in the default locale,
skipped by `std::stoi`. -/
def isSpaceChar (c : Char) : Bool :=
  c = ' ' || c = '\t' || c = '\n' || c = '\x0b' || c = '\x0c' || c = '\r'

/-- Decimal digit test. -/
def isDigitChar (c : Char) : Bool :=
  '0' ≤ c && c ≤ '9'

/-- Value of a digit string (most significant first). -/
def digitsVal (ds : List Char) : Nat :=
  ds.foldl (fun acc c => acc * 10 + (c.toNat - 48)) 0

/-- Longest leading digit run; `none` when there is no leading digit
(`std::stoi` then throws `invalid_argument`). -/
def parseDigits (cs : List Char) : Option Nat :=
  let ds := cs.takeWhile isDigitChar
  if ds.isEmpty then none else some (digitsVal ds)

/-- `std::stoi`: skip leading whitespace, then an optional sign, then parse
the longest digit run; `none` models the thrown exception when no digits
follow.  (Out-of-range cannot occur on the ≤ 2-character inputs used here.) -/
def stoi (s : List Char) : Option Int :=
  match s.dropWhile isSpaceChar with
  | [] => none
  | c :: rest =>
    if c = '+' then (parseDigits rest).map (fun n => (n : Int))
    else if c = '-' then (parseDigits rest).map (fun n => -(n : Int))
    else (parseDigits (c :: rest)).map (fun n => (n : Int))

/-- The width suffix taken from the FIXED offset `idx` (the source uses
`out_dtype.substr(bit_width_index)` with `bit_width_index` 3 or 4, not the
position where the pattern was found): must be 1 or 2 characters, numeric
per `std::stoi`, and at most 64. -/
def tailWidth (s : List Char) (idx : Nat) : Option Int :=
  let bit_width_str := s.drop idx
  if bit_width_str.length = 0 ∨ bit_width_str.length > 2 then none
  else
    match stoi bit_width_str with
    | none => none
    | some w => if w > 64 then none else some w

/-- The pattern searched for first: "UINT". -/
def uintPat : List Char := ['U', 'I', 'N', 'T']

/-- The pattern searched for second: "INT". -/
def intPat : List Char := ['I', 'N', 'T']

/-- `try_process_out_dtype` from finn.cc: search the descriptor for "UINT"
(unsigned, suffix offset 4), else "INT" (signed, suffix offset 3), else fail;
then read the width from the fixed offset.  `some (is_signed, bit_width)` on
success, `none` for `return false`. -/
def try_process_out_dtype (out_dtype : List Char) : Option (Bool × Int) :=
  match strFind uintPat out_dtype with
  | some _ => (tailWidth out_dtype 4).map (fun w => (false, w))
  | none =>
    match strFind intPat out_dtype with
    | none => none
    | some _ => (tailWidth out_dtype 3).map (fun w => (true, w))

/-- The largest value of the C++ `int` type (32-bit). -/
def intMax : Int := 2147483647

/-- `int bit_width_pow = std::pow(2, bit_width)`: `std::pow(2, w)` is an
exactly-representable double for every `w ≤ 64`, and the conversion to `int`
truncates toward zero (so negative widths give 0) but is undefined behavior
when the truncated value exceeds the `int` range — `none` marks that
undefined conversion (any `w` with `31 ≤ w ≤ 64`). -/
def pow2ToInt (w : Int) : Option Int :=
  if w < 0 then some 0
  else if (2 : Int) ^ w.toNat ≤ intMax then some ((2 : Int) ^ w.toNat)
  else none

/-- Modelled from the spec: the host `TypeReporter::AssertEQ` (TVM's type
solver, part of this repository but not under src/) asserts equality of two
concrete dimensions; per spec §4.2 step 4 a mismatch terminates the inference
with the threshold-count-mismatch error. -/
def assertEQ (a b : Int) : Bool :=
  a = b

/-- Outcome of one run of the type relation.  `notATensor` is the bare
`return false` at the null-pointer checks; `badFormat`, `badSignedBias` and
`badUnsignedBias` are the three `EmitFatal` diagnostics followed by
`return false`; `oobIndex` is the out-of-bounds shape access the source
performs on a rank-0 operand (the host container aborts); `intOverflowUB` is
the undefined double-to-int conversion of `std::pow(2, w)` for `w ≥ 31`;
`thresholdCountMismatch` is the failed `AssertEQ` (modelled from the spec);
`success t` is `reporter->Assign(types[2], types[0])` followed by
`return true`, with `t` the assigned type. -/
inductive RelOutcome
  | notATensor
  | badFormat
  | oobIndex
  | intOverflowUB
  | thresholdCountMismatch
  | badSignedBias
  | badUnsignedBias
  | success (out : RelayType)
  deriving DecidableEq, Repr

/-- `MultiThresholdRel` from finn.cc, on its three type slots and attributes.
Faithful to the source: BOTH operand lookups dereference `types[0]` (the
local named `thresholds` is initialized from `types[0]`, not `types[1]`), so
`t1` is never read; the trailing-dimension check therefore inspects the slot-0
tensor.  Check order follows the source: slot-0 null check, descriptor parse,
power-of-two computation, trailing-dimension read and `AssertEQ`, signed-bias
check, unsigned-bias check, assignment of `types[0]` to the output slot. -/
def MultiThresholdRel (t0 t1 t2 : RelayType) (attrs : MultiThresholdAttrs) : RelOutcome :=
  match t0 with
  | RelayType.nonTensor _ => RelOutcome.notATensor
  | RelayType.tensor data =>
    let thresholds := data
    match try_process_out_dtype attrs.out_dtype.toList with
    | none => RelOutcome.badFormat
    | some (out_dtype_signed, bit_width) =>
      match pow2ToInt bit_width with
      | none => RelOutcome.intOverflowUB
      | some bit_width_pow =>
        let thresh_last_index := thresholds.shape.length
        if thresh_last_index = 0 then RelOutcome.oobIndex
        else if ¬ assertEQ (thresholds.shape.getD (thresh_last_index - 1) 0) bit_width_pow then
          RelOutcome.thresholdCountMismatch
        else if out_dtype_signed ∧ attrs.out_bias ≠ ((Int.tdiv (-bit_width_pow) 2 : Int) : ℚ) then
          RelOutcome.badSignedBias
        else if ¬ out_dtype_signed ∧ attrs.out_bias ≠ 0 then
          RelOutcome.badUnsignedBias
        else RelOutcome.success t0

/-- `MakeMultiThreshold` from finn.cc: pure construction of the attribute
record (the call node itself is host IR and out of scope). -/
def MakeMultiThreshold (out_dtype : String) (out_bias : ℚ) : MultiThresholdAttrs :=
  { out_dtype := out_dtype, out_bias := out_bias }

/-- Exactness of the level computation for widths that fit the `int` range. -/
theorem pow2ToInt_exact (w : Int) (h0 : 0 ≤ w) (h : w ≤ 30) :
    pow2ToInt w = some ((2 : Int) ^ w.toNat) := by
  have hnn : ¬ w < 0 := by omega
  have hwt : w.toNat ≤ 30 := by omega
  have hle : (2 : Int) ^ w.toNat ≤ intMax := by
    calc (2 : Int) ^ w.toNat ≤ 2 ^ 30 := pow_le_pow_right₀ (by norm_num) hwt
    _ ≤ intMax := by decide
  simp [pow2ToInt, hnn, hle]

/-- If the per-position comparison succeeds, the pattern is a literal prefix
of the string. -/
theorem leadsWith_append (p : List Char) :
    ∀ (s : List Char), leadsWith p s = true → ∃ r, s = p ++ r := by
  induction p with
  | nil => exact fun s _ => ⟨s, rfl⟩
  | cons a ps ih =>
    intro s h
    match s with
    | [] => simp [leadsWith] at h
    | c :: cs =>
      simp only [leadsWith, Bool.and_eq_true] at h
      rcases h with ⟨h1, h2⟩
      rcases ih cs h2 with ⟨r, hr⟩
      have hac : a = c := by simpa using h1
      subst hac
      exact ⟨r, by simp [hr]⟩

/-- If `strFind pat s = some k`, the pattern occurs literally at offset `k`. -/
theorem strFind_some (pat : List Char) :
    ∀ (s : List Char) (k : Nat), strFind pat s = some k → ∃ r, s.drop k = pat ++ r := by
  intro s
  induction s with
  | nil =>
    intro k h
    rw [strFind] at h
    by_cases hp : leadsWith pat [] = true
    · rw [if_pos hp] at h
      cases h
      simpa using leadsWith_append pat [] hp
    · rw [if_neg hp] at h
      cases h
  | cons c rest ih =>
    intro k h
    rw [strFind] at h
    by_cases hp : leadsWith pat (c :: rest) = true
    · rw [if_pos hp] at h
      cases h
      simpa using leadsWith_append pat (c :: rest) hp
    · rw [if_neg hp] at h
      rcases Option.map_eq_some'.mp h with ⟨k2, hk2, hkk⟩
      subst hkk
      simpa using ih k2 hk2

/-- `std::stoi` fails on any string headed by a character that is neither
whitespace, a sign, nor a digit. -/
theorem stoi_none_head (c : Char) (r : List Char)
    (h1 : isSpaceChar c = false) (h2 : ¬ c = '+') (h3 : ¬ c = '-')
    (h4 : isDigitChar c = false) :
    stoi (c :: r) = none := by
  simp [stoi, List.dropWhile_cons, h1, h2, h3, parseDigits, List.takeWhile_cons, h4]

/-- The width suffix fails whenever `std::stoi` fails on it. -/
theorem tailWidth_stoi_none (l : List Char) (h : stoi (l.drop 4) = none) :
    tailWidth l 4 = none := by
  simp only [tailWidth]
  split
  · rfl
  · rw [h]

/-- The width suffix fails whenever it is longer than 2 characters. -/
theorem tailWidth_long (l : List Char) (idx : Nat) (h : 2 < (l.drop idx).length) :
    tailWidth l idx = none := by
  simp only [tailWidth]
  rw [if_pos (Or.inr h)]

/-- Dropping at most 3 characters of "UINT" ++ r leaves a string headed by
one of U, I, N, T, on which `std::stoi` fails. -/
theorem stoi_uint_tail (j : Nat) (r : List Char) (hj : j ≤ 3) :
    stoi (List.drop j (uintPat ++ r)) = none := by
  interval_cases j <;>
    · simp only [uintPat, List.cons_append, List.nil_append, List.drop]
      exact stoi_none_head _ _ (by decide) (by decide) (by decide) (by decide)

/-- C9: the descriptor parser satisfies the spec's examples: "INT8" parses
signed with width 8, "UINT4" parses unsigned with width 4, and "INT",
"INT128", "FOO" and "INTxy" all fail. -/
theorem C9_parse_examples :
    try_process_out_dtype "INT8".toList = some (true, 8) ∧
    try_process_out_dtype "UINT4".toList = some (false, 4) ∧
    try_process_out_dtype "INT".toList = none ∧
    try_process_out_dtype "INT128".toList = none ∧
    try_process_out_dtype "FOO".toList = none ∧
    try_process_out_dtype "INTxy".toList = none := by
  decide

/-- C1: at the spec's own example (descriptor "INT4", data shape [10, 4],
thresholds shape [10, 16], bias -8) the source FAILS the trailing-dimension
check instead of succeeding: both operand lookups read `types[0]`, so the
compared trailing dimension is the data tensor's 4, not the thresholds
tensor's 16. -/
theorem C1_code_checks_slot0_trailing_dim :
    MultiThresholdRel (RelayType.tensor ⟨[10, 4], 0⟩) (RelayType.tensor ⟨[10, 16], 0⟩)
      (RelayType.nonTensor 0) ⟨"INT4", -8⟩ = RelOutcome.thresholdCountMismatch := by
  decide

/-- C2: the relation never reads type slot 1 — whenever slot 0 holds a tensor
type, two runs differing only in slot 1 produce the identical outcome. -/
theorem C2_slot1_never_read (t0 t1 t1a t2 : RelayType) (attrs : MultiThresholdAttrs)
    (h : ∃ tt, t0 = RelayType.tensor tt) :
    MultiThresholdRel t0 t1 t2 attrs = MultiThresholdRel t0 t1a t2 attrs := rfl

/-- C2 witness: a concrete pair of runs differing only in slot 1 (a tensor
versus a non-tensor there) with identical outcomes. -/
theorem C2_witness :
    MultiThresholdRel (RelayType.tensor ⟨[10, 16], 0⟩) (RelayType.tensor ⟨[1], 0⟩)
        (RelayType.nonTensor 0) ⟨"UINT4", 0⟩
      = MultiThresholdRel (RelayType.tensor ⟨[10, 16], 0⟩) (RelayType.nonTensor 7)
        (RelayType.nonTensor 0) ⟨"UINT4", 0⟩ :=
  C2_slot1_never_read (RelayType.tensor ⟨[10, 16], 0⟩) (RelayType.tensor ⟨[1], 0⟩)
    (RelayType.nonTensor 7) (RelayType.nonTensor 0) ⟨"UINT4", 0⟩ ⟨⟨[10, 16], 0⟩, rfl⟩

/-- C3: on a rank-0 slot-0 operand the source evaluates
`thresholds->shape[size - 1]` with `size = 0`, an out-of-bounds access, rather
than failing gracefully with an EmptyShape error as the claim requires. -/
theorem C3_rank0_out_of_bounds :
    MultiThresholdRel (RelayType.tensor ⟨[], 0⟩) (RelayType.tensor ⟨[], 0⟩)
      (RelayType.nonTensor 0) ⟨"INT4", -8⟩ = RelOutcome.oobIndex := by
  decide

/-- C5: a non-tensor thresholds slot (slot 1) is NOT rejected: the source
never inspects `types[1]`, so with a tensor in slot 0 the inference proceeds
and succeeds instead of failing with NotATensor. -/
theorem C5_nontensor_thresholds_not_rejected :
    MultiThresholdRel (RelayType.tensor ⟨[10, 16], 0⟩) (RelayType.nonTensor 0)
      (RelayType.nonTensor 1) ⟨"UINT4", 0⟩
      = RelOutcome.success (RelayType.tensor ⟨[10, 16], 0⟩) := by
  decide

/-- C8 counterexample: descriptor "INT31" parses with bit width 31, but the
double-to-int conversion of `std::pow(2, 31)` overflows the `int` range, so
the relation hits undefined behavior instead of using the exact level count
2^31 — refuting exactness for every width up to 64. -/
theorem C8_counterexample :
    try_process_out_dtype "INT31".toList = some (true, 31) ∧
    pow2ToInt 31 = none ∧
    MultiThresholdRel (RelayType.tensor ⟨[2147483648], 0⟩)
      (RelayType.tensor ⟨[2147483648], 0⟩) (RelayType.nonTensor 0)
      ⟨"INT31", -1073741824⟩ = RelOutcome.intOverflowUB := by
  decide

/-- C8 (amended): for every parsed bit width w with 1 ≤ w ≤ 30 the level
count computed by the relation is the exact integer power 2^w; widths 31–64
instead hit the undefined int conversion (see the counterexample). -/
theorem C8_amended_pow_exact (w : Int) (h0 : 1 ≤ w) (h : w ≤ 30) :
    pow2ToInt w = some ((2 : Int) ^ w.toNat) :=
  pow2ToInt_exact w (by omega) h

/-- C8 amended witness: at width 4 the computed level count is exactly 16. -/
theorem C8_amended_witness : pow2ToInt 4 = some 16 := by
  have h := C8_amended_pow_exact 4 (by decide) (by decide)
  simpa using h

/-- C4 counterexample: "XUINT4" contains "UINT" (at index 1) followed by the
1-digit numeric tail "4", yet the parser FAILS — because the width suffix is
read from the fixed offset 4 ("T4"), not from after the found occurrence —
refuting the claim that any such descriptor parses as unsigned. -/
theorem C4_counterexample :
    strFind uintPat "XUINT4".toList = some 1 ∧
    try_process_out_dtype "XUINT4".toList = none := by
  decide

/-- C4 (amended): the "UINT" search is indeed an unanchored substring search,
but the numeric suffix is always read from the fixed offset 4, not from after
the found occurrence; consequently a descriptor whose first "UINT" occurrence
is at any NONZERO position never parses — the claimed permissive
anywhere-in-the-string success does not exist. -/
theorem C4_uint_inside_never_parses (s : List Char) (k : Nat)
    (hf : strFind uintPat s = some k) (hk : k ≠ 0) :
    try_process_out_dtype s = none := by
  rcases strFind_some uintPat s k hf with ⟨r, hr⟩
  have hlen : s.length = k + (4 + r.length) := by
    have hL := congrArg List.length hr
    simp [uintPat] at hL
    omega
  have ht : tailWidth s 4 = none := by
    by_cases hk4 : k ≤ 4
    · apply tailWidth_stoi_none
      have hd : s.drop 4 = List.drop (4 - k) (uintPat ++ r) := by
        rw [← hr, List.drop_drop]
        congr 1
        omega
      rw [hd]
      exact stoi_uint_tail (4 - k) r (by omega)
    · apply tailWidth_long
      rw [List.length_drop]
      omega
  simp [try_process_out_dtype, hf, ht]

/-- C4 amended witness: "XUINT7" has its "UINT" at index 1 and fails to
parse. -/
theorem C4_amended_witness :
    try_process_out_dtype "XUINT7".toList = none :=
  C4_uint_inside_never_parses "XUINT7".toList 1 (by decide) (by decide)

/-- C6: whenever the descriptor parses as signed with width w (w ≤ 30, so the
level count fits the `int` range), slot 0 is a tensor whose trailing
dimension equals 2^w (so the trailing-dimension assertion passes and the bias
check is reached), the relation fails with the signed-bias error exactly when
the bias differs from `-levels / 2` computed as in the source (C++ truncating
integer division of `-2^w` by 2). -/
theorem C6_signed_bias_check (shape : List Int) (d : Nat) (t1 t2 : RelayType)
    (dt : String) (bias : ℚ) (w : Int)
    (hparse : try_process_out_dtype dt.toList = some (true, w))
    (hw0 : 0 ≤ w) (hw : w ≤ 30)
    (hrank : shape.length ≠ 0)
    (hlast : shape.getD (shape.length - 1) 0 = (2 : Int) ^ w.toNat) :
    MultiThresholdRel (RelayType.tensor ⟨shape, d⟩) t1 t2 ⟨dt, bias⟩
        = RelOutcome.badSignedBias
      ↔ bias ≠ ((Int.tdiv (-((2 : Int) ^ w.toNat)) 2 : Int) : ℚ) := by
  have hpow := pow2ToInt_exact w hw0 hw
  have hparse2 : try_process_out_dtype dt.data = some (true, w) := hparse
  have hlast2 : shape[shape.length - 1]?.getD 0 = (2 : Int) ^ w.toNat := by
    rw [← List.getD_eq_getElem?_getD]
    exact hlast
  by_cases hb : bias = ((Int.tdiv (-((2 : Int) ^ w.toNat)) 2 : Int) : ℚ)
  · simp [MultiThresholdRel, hparse, hparse2, hpow, hrank, assertEQ, hlast, hlast2, hb,
      Int.neg_tdiv]
  · simp [MultiThresholdRel, hparse, hparse2, hpow, hrank, assertEQ, hlast, hlast2, hb,
      Int.neg_tdiv]

/-- C6 witness: descriptor "INT4" with slot-0 trailing dimension 16 and bias
0 (≠ -8) fails with the signed-bias error. -/
theorem C6_witness :
    MultiThresholdRel (RelayType.tensor ⟨[10, 16], 0⟩) (RelayType.tensor ⟨[10, 16], 0⟩)
      (RelayType.nonTensor 0) ⟨"INT4", 0⟩ = RelOutcome.badSignedBias := by
  have h := C6_signed_bias_check [10, 16] 0 (RelayType.tensor ⟨[10, 16], 0⟩)
    (RelayType.nonTensor 0) "INT4" 0 4 (by decide) (by decide) (by decide)
    (by decide) (by decide)
  rw [h]
  decide

/-- C7: whenever the descriptor parses as unsigned with width w (w ≤ 30) and
slot 0 is a tensor whose trailing dimension equals 2^w (so the bias check is
reached), the relation fails with the unsigned-bias error exactly when the
bias is nonzero, and succeeds (assigning slot 0's type) exactly when the bias
is zero. -/
theorem C7_unsigned_bias_check (shape : List Int) (d : Nat) (t1 t2 : RelayType)
    (dt : String) (bias : ℚ) (w : Int)
    (hparse : try_process_out_dtype dt.toList = some (false, w))
    (hw0 : 0 ≤ w) (hw : w ≤ 30)
    (hrank : shape.length ≠ 0)
    (hlast : shape.getD (shape.length - 1) 0 = (2 : Int) ^ w.toNat) :
    (MultiThresholdRel (RelayType.tensor ⟨shape, d⟩) t1 t2 ⟨dt, bias⟩
        = RelOutcome.badUnsignedBias ↔ bias ≠ 0) ∧
    (MultiThresholdRel (RelayType.tensor ⟨shape, d⟩) t1 t2 ⟨dt, bias⟩
        = RelOutcome.success (RelayType.tensor ⟨shape, d⟩) ↔ bias = 0) := by
  have hpow := pow2ToInt_exact w hw0 hw
  have hparse2 : try_process_out_dtype dt.data = some (false, w) := hparse
  have hlast2 : shape[shape.length - 1]?.getD 0 = (2 : Int) ^ w.toNat := by
    rw [← List.getD_eq_getElem?_getD]
    exact hlast
  by_cases hb : bias = 0
  · simp [MultiThresholdRel, hparse, hparse2, hpow, hrank, assertEQ, hlast, hlast2, hb]
  · simp [MultiThresholdRel, hparse, hparse2, hpow, hrank, assertEQ, hlast, hlast2, hb]

/-- C7 witness: descriptor "UINT4" with slot-0 trailing dimension 16 succeeds
at bias 0 (output = slot 0's type) and fails with the unsigned-bias error at
bias 1. -/
theorem C7_witness :
    MultiThresholdRel (RelayType.tensor ⟨[10, 16], 0⟩) (RelayType.tensor ⟨[10, 16], 0⟩)
        (RelayType.nonTensor 0) ⟨"UINT4", 0⟩
      = RelOutcome.success (RelayType.tensor ⟨[10, 16], 0⟩) ∧
    MultiThresholdRel (RelayType.tensor ⟨[10, 16], 0⟩) (RelayType.tensor ⟨[10, 16], 0⟩)
        (RelayType.nonTensor 0) ⟨"UINT4", 1⟩ = RelOutcome.badUnsignedBias := by
  constructor
  · have h := (C7_unsigned_bias_check [10, 16] 0 (RelayType.tensor ⟨[10, 16], 0⟩)
      (RelayType.nonTensor 0) "UINT4" 0 4 (by decide) (by decide) (by decide)
      (by decide) (by decide)).2
    rw [h]
  · have h := (C7_unsigned_bias_check [10, 16] 0 (RelayType.tensor ⟨[10, 16], 0⟩)
      (RelayType.nonTensor 0) "UINT4" 1 4 (by decide) (by decide) (by decide)
      (by decide) (by decide)).1
    rw [h]
    decide

/-- C10: the relation is a pure, deterministic function of its inputs — two
invocations with identical type slots and identical attributes produce the
identical outcome. -/
theorem C10_deterministic (a b c a2 b2 c2 : RelayType) (x x2 : MultiThresholdAttrs)
    (h0 : a = a2) (h1 : b = b2) (h2 : c = c2) (hx : x = x2) :
    MultiThresholdRel a b c x = MultiThresholdRel a2 b2 c2 x2 := by
  subst h0; subst h1; subst h2; subst hx; rfl

/-- C10 witness: two concrete identical invocations agree. -/
theorem C10_witness :
    MultiThresholdRel (RelayType.tensor ⟨[10, 16], 0⟩) (RelayType.tensor ⟨[10, 16], 0⟩)
        (RelayType.nonTensor 0) ⟨"INT4", -8⟩
      = MultiThresholdRel (RelayType.tensor ⟨[10, 16], 0⟩) (RelayType.tensor ⟨[10, 16], 0⟩)
        (RelayType.nonTensor 0) ⟨"INT4", -8⟩ :=
  C10_deterministic (RelayType.tensor ⟨[10, 16], 0⟩) (RelayType.tensor ⟨[10, 16], 0⟩)
    (RelayType.nonTensor 0) (RelayType.tensor ⟨[10, 16], 0⟩)
    (RelayType.tensor ⟨[10, 16], 0⟩) (RelayType.nonTensor 0)
    ⟨"INT4", -8⟩ ⟨"INT4", -8⟩ rfl rfl rfl rfl

end Finn
